import Mathlib

/-!
Verification development for the mmd-editor application shell
(src/App.tsx).  The component state held in React hooks is embedded as a
plain structure, each event handler as a pure state-transition function,
and the two external effects the handlers await (the mermaid render call
and the file write/read) as explicit result parameters.  Timer-based
debouncing is embedded as a timed trace semantics over the list of edit
events.
-/

/-- The AppState record of App.tsx (currentFile, isDirty, currentTheme). -/
structure AppState where
  currentFile : Option String
  isDirty : Bool
  currentTheme : String
deriving Repr, DecidableEq

/-- The full component state of App: the AppState hook plus the status,
error-flag, svg, zoom, pan, dragging hooks, and the editor document text
(owned by the CodeMirror view, read through getCode / written through
setCode in the source). Pointer coordinates and pan are embedded as
integers. -/
structure App where
  state : AppState
  status : String
  isError : Bool
  svg : String
  zoom : Int
  panX : Int
  panY : Int
  isDragging : Bool
  dragStartX : Int
  dragStartY : Int
  docText : String
deriving Repr, DecidableEq

/-- The DEFAULT_CODE constant of App.tsx. -/
def DEFAULT_CODE : String :=
  "graph TD\n    A[Start] --> B\x7bIs it working?\x7d\n    B -->|Yes| C[Great!]\n    B -->|No| D[Debug]\n    D --> B\n"

/-- The initial value passed to useState<AppState> (App.tsx lines 75-79).
The persisted key-value store is passed as an explicit parameter to make
the frame effect provable: the source initializer consults no store, so
the parameter is unused. -/
def initialAppState (persistedStore : List (String × String)) : AppState :=
  let _ := persistedStore
  { currentFile := none, isDirty := false, currentTheme := "default" }

/-! ## Render pipeline (renderDiagram, App.tsx lines 171-196) -/

/-- The observable outcome of one renderDiagram run: the svg hook, the
status hook, the error flag, and whether the external renderMermaid call
was made. -/
structure RenderOutcome where
  svg : String
  status : String
  isError : Bool
  externalCalled : Bool
deriving Repr, DecidableEq

/-- Embedding of the JavaScript String.prototype.trim call in the guard
of renderDiagram (the source tests code.trim() for emptiness): strips
leading and trailing whitespace from the string. -/
def jsTrim (s : String) : String :=
  String.mk (((s.data.dropWhile Char.isWhitespace).reverse.dropWhile Char.isWhitespace).reverse)

/-- The neutral placeholder markup set when the text is blank. -/
def placeholderSvg : String :=
  "<div class=\"text-muted-foreground\">Enter mermaid code to preview</div>"

/-- The inline failure markup built around the error message. -/
def errorSvg (m : String) : String :=
  "<div class=\"text-red-500 p-4\">" ++ m ++ "</div>"

/-- renderDiagram (App.tsx lines 171-196): if the code is
whitespace-only it sets the placeholder, status Ready, clears the error
flag and makes no external call; otherwise it awaits renderMermaid,
whose result is the external parameter: on success it sets the markup
and status Syntax OK, on failure the inline error markup, the
Error-prefixed status and the error flag. -/
def renderDiagram (code : String) (external : Except String String) : RenderOutcome :=
  if jsTrim code = "" then
    { svg := placeholderSvg, status := "Ready", isError := false, externalCalled := false }
  else
    match external with
    | Except.ok result =>
        { svg := result, status := "Syntax OK", isError := false, externalCalled := true }
    | Except.error m =>
        { svg := errorSvg m, status := "Error: " ++ m, isError := true, externalCalled := true }

/-! ## Debounced render scheduler (App.tsx lines 198-205 and 219-224) -/

/-- The debounce quiet interval of debouncedRender, in milliseconds. -/
def debounceDelay : Nat := 300

/-- The scheduler-visible state touched by the updateListener: the dirty
flag and the pending timer (the fire time of renderTimeoutRef, none when
no render is scheduled). -/
structure SchedulerState where
  isDirty : Bool
  pending : Option Nat
deriving Repr, DecidableEq

/-- The updateListener body on a docChanged update (App.tsx lines
219-224): marks the document dirty and calls debouncedRender, which
clears any pending timeout and schedules a new render debounceDelay
milliseconds from now. -/
def onTextChanged (st : SchedulerState) (now : Nat) : SchedulerState :=
  let _ := st
  { isDirty := true, pending := some (now + debounceDelay) }

/-- An edit trace is a time-ordered list of (time, full text after the
edit).  gapsOk holds when every consecutive pair of edits is separated
by less than the quiet interval. -/
def gapsOk : List (Nat × String) → Bool
  | [] => true
  | [_] => true
  | (t, _) :: (t2, s2) :: rest =>
      decide (t2 < t + debounceDelay) && gapsOk ((t2, s2) :: rest)

/-- The last event of a nonempty trace, written head-plus-tail. -/
def lastEvent (e : Nat × String) : List (Nat × String) → Nat × String
  | [] => e
  | e2 :: es => lastEvent e2 es

/-- Timed trace semantics of the setTimeout / clearTimeout pattern of
debouncedRender: each edit at time t schedules a render at t +
debounceDelay, cancelling the previously scheduled one.  The timer of an
edit fires only if the next edit arrives no earlier than its fire time;
the fired render reads the text snapshot current at fire time.  Returns
the list of issued render calls as (fire time, text snapshot). -/
def renderFires : List (Nat × String) → List (Nat × String)
  | [] => []
  | [(t, s)] => [(t + debounceDelay, s)]
  | (t, s) :: (t2, s2) :: rest =>
      if t + debounceDelay ≤ t2 then
        (t + debounceDelay, s) :: renderFires ((t2, s2) :: rest)
      else
        renderFires ((t2, s2) :: rest)

/-! ## Zoom operations (App.tsx lines 416-423 and 536-554) -/

/-- The three zoom mutators: the zoom-in button, the zoom-out button,
and a wheel event carrying its ctrlKey / metaKey modifiers and deltaY. -/
inductive ZoomOp where
  | zoomInClick : ZoomOp
  | zoomOutClick : ZoomOp
  | wheel (ctrlKey metaKey : Bool) (deltaY : Int) : ZoomOp
deriving Repr, DecidableEq

/-- The effect of one zoom operation on the zoom hook: the zoom-in
button sets min 500 (z + 25), the zoom-out button max 25 (z - 25)
(App.tsx lines 536-554); handleWheel (lines 416-423) applies a ±10
delta clamped to [25, 500] only when ctrlKey or metaKey is held, and
leaves the zoom untouched otherwise. -/
def applyZoom (z : Int) : ZoomOp → Int
  | ZoomOp.zoomInClick => min 500 (z + 25)
  | ZoomOp.zoomOutClick => max 25 (z - 25)
  | ZoomOp.wheel ctrlKey metaKey deltaY =>
      if ctrlKey || metaKey then
        min 500 (max 25 (z + (if deltaY > 0 then (-10 : Int) else 10)))
      else z

/-! ## Pointer-drag pan handlers (App.tsx lines 398-414) -/

/-- handleMouseDown (App.tsx lines 398-402): returns unchanged for any
non-primary button; for the primary button (0) it starts dragging and
records dragStart = pointer - pan.  Pan itself is not touched. -/
def handleMouseDown (a : App) (button : Nat) (clientX clientY : Int) : App :=
  if button ≠ 0 then a
  else
    { a with
        isDragging := true
        dragStartX := clientX - a.panX
        dragStartY := clientY - a.panY }

/-- handleMouseMove (App.tsx lines 404-410): a no-op unless dragging;
while dragging, sets pan = pointer - dragStart. -/
def handleMouseMove (a : App) (clientX clientY : Int) : App :=
  if a.isDragging then
    { a with panX := clientX - a.dragStartX, panY := clientY - a.dragStartY }
  else a

/-- handleMouseUp (App.tsx lines 412-414): clears the dragging flag. -/
def handleMouseUp (a : App) : App :=
  { a with isDragging := false }

/-- handleResetView (App.tsx lines 425-428): zoom back to 100, pan to
(0, 0). -/
def handleResetView (a : App) : App :=
  { a with zoom := 100, panX := 0, panY := 0 }

/-! ## File and document handlers (App.tsx lines 325-366, 494-497) -/

/-- handleNew (App.tsx lines 325-329): setCode(DEFAULT_CODE), then a
full replacement of the AppState record (currentFile null, clean,
default theme), then status New file.  The transient dirty mark raised
by the setCode dispatch is overwritten by the full setState that
follows, so the net document state is clean. -/
def handleNew (a : App) : App :=
  { a with
      docText := DEFAULT_CODE
      state := { currentFile := none, isDirty := false, currentTheme := "default" }
      status := "New file" }

/-- handleOpen (App.tsx lines 331-345).  The open dialog result and the
readTextFile outcome are external inputs: a cancelled dialog leaves the
state untouched; a successful read replaces the document text, records
the file path, clears the dirty flag and sets the Opened status; a
failed read only sets the failure status and the error flag. -/
def handleOpen (a : App) (dialogPath : Option String)
    (readResult : String → Except String String) : App :=
  match dialogPath with
  | none => a
  | some filePath =>
      match readResult filePath with
      | Except.ok content =>
          { a with
              docText := content
              state := { a.state with currentFile := some filePath, isDirty := false }
              status := "Opened: " ++ filePath }
      | Except.error m =>
          { a with status := "Failed to open: " ++ m, isError := true }

/-- The file-path resolution at the top of handleSave: the current file
if there is one, otherwise the save-dialog result (none when the dialog
was cancelled). -/
def resolveSavePath (currentFile : Option String) (saveDialog : Option String) :
    Option String :=
  match currentFile with
  | some p => some p
  | none => saveDialog

/-- handleSave (App.tsx lines 347-366).  The save dialog result and the
writeTextFile outcome are external inputs.  A cancelled dialog returns
without any change; a successful write records the path, clears the
dirty flag and sets the Saved status; a failed write only sets the
failure status and the error flag, leaving state and document text
untouched. -/
def handleSave (a : App) (saveDialog : Option String)
    (writeResult : String → String → Except String Unit) : App :=
  match resolveSavePath a.state.currentFile saveDialog with
  | none => a
  | some filePath =>
      match writeResult filePath a.docText with
      | Except.ok _ =>
          { a with
              state := { a.state with currentFile := some filePath, isDirty := false }
              status := "Saved: " ++ filePath }
      | Except.error m =>
          { a with status := "Failed to save: " ++ m, isError := true }

/-- The theme Select onValueChange handler (App.tsx lines 494-497):
setState(prev with currentTheme := value).  The persisted key-value
store is threaded through as an explicit parameter to make the frame
effect provable: the source handler performs no store write, so the
store is returned unchanged. -/
def handleThemeChange (a : App) (persistedStore : List (String × String))
    (value : String) : App × List (String × String) :=
  ({ a with state := { a.state with currentTheme := value } }, persistedStore)

/-! ## Concrete states used by witnesses and counterexamples -/

/-- A concrete component state in the idle (not dragging) condition. -/
def idleApp : App :=
  { state := { currentFile := none, isDirty := false, currentTheme := "default" }
    status := "Ready"
    isError := false
    svg := ""
    zoom := 100
    panX := 3
    panY := 4
    isDragging := false
    dragStartX := 0
    dragStartY := 0
    docText := "graph TD" }

/-- A concrete component state mid-drag. -/
def draggingApp : App :=
  { idleApp with isDragging := true, dragStartX := 1, dragStartY := 2 }

/-- A concrete zoomed and panned state with an open dirty file. -/
def zoomedDirtyApp : App :=
  { idleApp with
      state := { currentFile := some "d.mmd", isDirty := true, currentTheme := "nord" }
      zoom := 200
      panX := 5
      panY := 7
      docText := "graph LR" }

/-- A write outcome that always fails with a fixed message. -/
def failingWrite : String → String → Except String Unit :=
  fun _ _ => Except.error "disk full"

/-! ## Theorems -/

theorem applyZoom_bounds (z : Int) (op : ZoomOp) (h1 : 25 ≤ z) (h2 : z ≤ 500) :
    25 ≤ applyZoom z op ∧ applyZoom z op ≤ 500 := by
  cases op with
  | zoomInClick => simp only [applyZoom]; omega
  | zoomOutClick => simp only [applyZoom]; omega
  | wheel c m d =>
      simp only [applyZoom]
      split
      · split <;> omega
      · omega

theorem foldl_applyZoom_bounds (ops : List ZoomOp) (z : Int)
    (h1 : 25 ≤ z) (h2 : z ≤ 500) :
    25 ≤ List.foldl applyZoom z ops ∧ List.foldl applyZoom z ops ≤ 500 := by
  induction ops generalizing z with
  | nil => exact ⟨h1, h2⟩
  | cons op ops ih =>
      have h := applyZoom_bounds z op h1 h2
      simpa using ih (applyZoom z op) h.1 h.2

/-- C2: starting from zoom 100, any sequence of zoom operations
(zoom-in button +25, zoom-out button -25, modifier-wheel ±10) keeps the
zoom percent within [25, 500], and a wheel event without the
Ctrl/Meta modifier leaves the zoom unchanged. -/
theorem zoom_clamped_in_bounds :
    (∀ ops : List ZoomOp,
       25 ≤ List.foldl applyZoom 100 ops ∧ List.foldl applyZoom 100 ops ≤ 500) ∧
    (∀ (z : Int) (deltaY : Int), applyZoom z (ZoomOp.wheel false false deltaY) = z) := by
  constructor
  · intro ops
    exact foldl_applyZoom_bounds ops 100 (by omega) (by omega)
  · intro z deltaY
    simp [applyZoom]

/-- C8: handleResetView yields exactly zoom 100 and pan (0, 0) from any
prior state. -/
theorem reset_view_exact (a : App) :
    (handleResetView a).zoom = 100 ∧
    (handleResetView a).panX = 0 ∧
    (handleResetView a).panY = 0 := by
  simp [handleResetView]

/-- C10: handleNew replaces the AppState record with exactly
(currentFile none, isDirty false, currentTheme default) - in particular
any previously selected theme is reset to default - while zoom, pan and
the error flag keep their prior values. -/
theorem new_document_state_reset (a : App) :
    (handleNew a).state =
      { currentFile := none, isDirty := false, currentTheme := "default" } ∧
    (handleNew a).state.currentTheme = "default" ∧
    (handleNew a).zoom = a.zoom ∧
    (handleNew a).panX = a.panX ∧
    (handleNew a).panY = a.panY ∧
    (handleNew a).isError = a.isError := by
  simp [handleNew]

/-- C7: beginDrag never moves the pan (no jump at drag start); on the
primary button it starts dragging and records dragStart = pointer - pan,
and on any other button it is a no-op; dragTo while dragging sets
pan = pointer - dragStart, and is a no-op when not dragging. -/
theorem drag_no_jump (a : App) (button : Nat) (x y : Int) :
    (handleMouseDown a button x y).panX = a.panX ∧
    (handleMouseDown a button x y).panY = a.panY ∧
    (button = 0 →
       (handleMouseDown a button x y).isDragging = true ∧
       (handleMouseDown a button x y).dragStartX = x - a.panX ∧
       (handleMouseDown a button x y).dragStartY = y - a.panY) ∧
    (button ≠ 0 → handleMouseDown a button x y = a) ∧
    (a.isDragging = true →
       (handleMouseMove a x y).panX = x - a.dragStartX ∧
       (handleMouseMove a x y).panY = y - a.dragStartY) ∧
    (a.isDragging = false → handleMouseMove a x y = a) := by
  refine ⟨?_, ?_, ?_, ?_, ?_, ?_⟩
  · by_cases hb : button = 0 <;> simp [handleMouseDown, hb]
  · by_cases hb : button = 0 <;> simp [handleMouseDown, hb]
  · intro hb; simp [handleMouseDown, hb]
  · intro hb; simp [handleMouseDown, hb]
  · intro hd; simp [handleMouseMove, hd]
  · intro hd; simp [handleMouseMove, hd]

theorem drag_no_jump_witness :
    (handleMouseDown idleApp 0 30 40).panX = 3 ∧
    (handleMouseDown idleApp 0 30 40).dragStartX = 27 ∧
    (handleMouseMove draggingApp 50 60).panX = 49 ∧
    (handleMouseMove draggingApp 50 60).panY = 58 ∧
    handleMouseMove idleApp 50 60 = idleApp := by
  refine ⟨?_, ?_, ?_, ?_, ?_⟩
  · exact (drag_no_jump idleApp 0 30 40).1
  · exact (((drag_no_jump idleApp 0 30 40).2.2.1 rfl).2.1).trans (by decide)
  · exact (((drag_no_jump draggingApp 0 50 60).2.2.2.2.1 rfl).1).trans (by decide)
  · exact (((drag_no_jump draggingApp 0 50 60).2.2.2.2.1 rfl).2).trans (by decide)
  · exact (drag_no_jump idleApp 0 50 60).2.2.2.2.2 rfl

/-- C3: when the text is not whitespace-only and the external render
call fails with message m, renderDiagram sets the inline failure markup
built around m, the status Error: m, the error flag, and the external
call was made - the message shows both inline and in the status line. -/
theorem render_failure_sets_error (code m : String) (h : jsTrim code ≠ "") :
    renderDiagram code (Except.error m) =
      { svg := "<div class=\"text-red-500 p-4\">" ++ m ++ "</div>"
        status := "Error: " ++ m
        isError := true
        externalCalled := true } := by
  simp [renderDiagram, h, errorSvg]

theorem render_failure_sets_error_witness :
    jsTrim "graph bad" ≠ "" ∧
    renderDiagram "graph bad" (Except.error "Parse error on line 2") =
      { svg := "<div class=\"text-red-500 p-4\">Parse error on line 2</div>"
        status := "Error: Parse error on line 2"
        isError := true
        externalCalled := true } := by
  refine ⟨by decide, ?_⟩
  exact (render_failure_sets_error "graph bad" "Parse error on line 2" (by decide)).trans rfl

/-- C4: when the text is empty or whitespace-only, renderDiagram sets
the neutral placeholder, status Ready, clears the error flag, and makes
no external call, whatever the external renderer would have returned. -/
theorem render_blank_placeholder (code : String) (external : Except String String)
    (h : jsTrim code = "") :
    renderDiagram code external =
      { svg := placeholderSvg
        status := "Ready"
        isError := false
        externalCalled := false } := by
  simp [renderDiagram, h]

theorem render_blank_placeholder_witness :
    jsTrim "" = "" ∧
    renderDiagram "" (Except.ok "<svg></svg>") =
      { svg := placeholderSvg
        status := "Ready"
        isError := false
        externalCalled := false } :=
  ⟨rfl, render_blank_placeholder "" (Except.ok "<svg></svg>") rfl⟩

theorem renderFires_burst (es : List (Nat × String)) :
    ∀ e : Nat × String, gapsOk (e :: es) = true →
      renderFires (e :: es) =
        [((lastEvent e es).1 + debounceDelay, (lastEvent e es).2)] := by
  induction es with
  | nil =>
      intro e _
      obtain ⟨t, s⟩ := e
      rfl
  | cons e2 es ih =>
      intro e h
      obtain ⟨t, s⟩ := e
      obtain ⟨t2, s2⟩ := e2
      simp only [gapsOk, Bool.and_eq_true, decide_eq_true_eq] at h
      simp only [renderFires, lastEvent]
      rw [if_neg (Nat.not_le.mpr h.1)]
      exact ih (t2, s2) h.2

/-- C1: for any nonempty burst of text-change events whose consecutive
events are separated by less than the 300 ms quiet interval, exactly one
render call is issued, firing 300 ms after the last edit with the text
snapshot present at the end of the burst; and each edit marks the
document dirty, cancels any pending scheduled render and schedules a new
one 300 ms later. -/
theorem debounced_burst_exactly_one_render
    (e : Nat × String) (es : List (Nat × String))
    (h : gapsOk (e :: es) = true) :
    renderFires (e :: es) =
      [((lastEvent e es).1 + debounceDelay, (lastEvent e es).2)] ∧
    (∀ (st : SchedulerState) (now : Nat),
       onTextChanged st now = { isDirty := true, pending := some (now + debounceDelay) }) :=
  ⟨renderFires_burst es e h, fun _ _ => rfl⟩

theorem debounced_burst_exactly_one_render_witness :
    gapsOk [(0, "g"), (100, "gr")] = true ∧
    renderFires [(0, "g"), (100, "gr")] = [(400, "gr")] ∧
    onTextChanged { isDirty := false, pending := none } 7 =
      { isDirty := true, pending := some 307 } := by
  have h := debounced_burst_exactly_one_render (0, "g") [(100, "gr")] (by decide)
  exact ⟨by decide, h.1.trans (by decide), h.2 { isDirty := false, pending := none } 7⟩

/-- C5 counterexample: theme selection is not persisted.  With the
persisted store holding theme dark, startup still yields theme default
(nothing is read back), and changing the theme to nord writes nothing to
the store. -/
theorem theme_not_persisted_counterexample :
    (initialAppState [("mmd-editor.theme", "dark")]).currentTheme ≠ "dark" ∧
    (handleThemeChange idleApp [("mmd-editor.theme", "dark")] "nord").2 =
      [("mmd-editor.theme", "dark")] := by
  exact ⟨by decide, rfl⟩

/-- C5 amended: theme changes update only the in-memory currentTheme
(the rest of the AppState and the key-value store are untouched), and at
startup the theme is initialized to default regardless of any stored
value. -/
theorem theme_change_in_memory_only (a : App) (store : List (String × String))
    (v : String) :
    (handleThemeChange a store v).1.state.currentTheme = v ∧
    (handleThemeChange a store v).2 = store ∧
    (handleThemeChange a store v).1.state.currentFile = a.state.currentFile ∧
    (handleThemeChange a store v).1.state.isDirty = a.state.isDirty ∧
    (initialAppState store).currentTheme = "default" := by
  simp [handleThemeChange, initialAppState]

/-- C6 counterexample: opening a file does not reset the view
transform.  From zoom 200 a successful open leaves the zoom at 200, not
100. -/
theorem open_keeps_view_counterexample :
    (handleOpen zoomedDirtyApp (some "a.mmd") (fun _ => Except.ok "graph TD")).zoom ≠ 100 := by
  decide

/-- C6 amended: loading a new document leaves the view transform
unchanged - after handleOpen (whatever the dialog and read results) and
after handleNew, zoom and pan equal their prior values; only the
explicit handleResetView sets them to 100, (0, 0). -/
theorem open_new_preserve_view (a : App) (dialogPath : Option String)
    (readResult : String → Except String String) :
    (handleOpen a dialogPath readResult).zoom = a.zoom ∧
    (handleOpen a dialogPath readResult).panX = a.panX ∧
    (handleOpen a dialogPath readResult).panY = a.panY ∧
    (handleNew a).zoom = a.zoom ∧
    (handleNew a).panX = a.panX ∧
    (handleNew a).panY = a.panY ∧
    (handleResetView a).zoom = 100 ∧
    (handleResetView a).panX = 0 ∧
    (handleResetView a).panY = 0 := by
  cases dialogPath with
  | none => simp [handleOpen, handleNew, handleResetView]
  | some p =>
      cases hr : readResult p <;> simp [handleOpen, handleNew, handleResetView, hr]

/-- C9: a failed write in handleSave only sets the failure status and
the error flag - the dirty flag, the current file path and the document
text are unchanged - and the dirty flag can only end up cleared by a
save when it already was clear or the write succeeded. -/
theorem save_error_atomic (a : App) (saveDialog : Option String)
    (writeResult : String → String → Except String Unit) (fp m : String)
    (hpath : resolveSavePath a.state.currentFile saveDialog = some fp)
    (hw : writeResult fp a.docText = Except.error m) :
    (handleSave a saveDialog writeResult).state.isDirty = a.state.isDirty ∧
    (handleSave a saveDialog writeResult).state.currentFile = a.state.currentFile ∧
    (handleSave a saveDialog writeResult).docText = a.docText ∧
    (handleSave a saveDialog writeResult).status = "Failed to save: " ++ m ∧
    (handleSave a saveDialog writeResult).isError = true ∧
    (∀ wr2 : String → String → Except String Unit,
       (handleSave a saveDialog wr2).state.isDirty = false →
       a.state.isDirty = false ∨
       ∃ fp2, resolveSavePath a.state.currentFile saveDialog = some fp2 ∧
         wr2 fp2 a.docText = Except.ok ()) := by
  refine ⟨?_, ?_, ?_, ?_, ?_, ?_⟩
  · simp [handleSave, hpath, hw]
  · simp [handleSave, hpath, hw]
  · simp [handleSave, hpath, hw]
  · simp [handleSave, hpath, hw]
  · simp [handleSave, hpath, hw]
  · intro wr2 hdirty
    cases hp : resolveSavePath a.state.currentFile saveDialog with
    | none =>
        simp [handleSave, hp] at hdirty
        exact Or.inl hdirty
    | some fp2 =>
        cases hw2 : wr2 fp2 a.docText with
        | ok u => exact Or.inr ⟨fp2, rfl, by cases u; exact hw2⟩
        | error m2 =>
            simp [handleSave, hp, hw2] at hdirty
            exact Or.inl hdirty

theorem save_error_atomic_witness :
    (handleSave zoomedDirtyApp none failingWrite).state.isDirty = true ∧
    (handleSave zoomedDirtyApp none failingWrite).state.currentFile = some "d.mmd" ∧
    (handleSave zoomedDirtyApp none failingWrite).docText = "graph LR" ∧
    (handleSave zoomedDirtyApp none failingWrite).status = "Failed to save: disk full" ∧
    (handleSave zoomedDirtyApp none failingWrite).isError = true := by
  have h := save_error_atomic zoomedDirtyApp none failingWrite "d.mmd" "disk full" rfl rfl
  exact ⟨h.1.trans (by decide), h.2.1.trans (by decide), h.2.2.1.trans (by decide),
    h.2.2.2.1, h.2.2.2.2.1⟩
